import Mathlib

/-!
Verification development for the toucan-connectors authenticated paginated
fetch engine: a shallow embedding of
`toucan_connectors/oauth2_connector/oauth2connector.py` (token lifecycle,
secret-store persistence) and
`toucan_connectors/aircall_oauth/aircall_oauth_connector.py` (the
retry/pagination driver `fetch_page` and the connector entry points
`_get_data`, `_get_tags`, `_retrieve_data`).

Modelling conventions:
- The secret store (`SecretsKeeper`, an abstract base class in the source) is
  a key/value association list; `save` replaces the value under a key, `load`
  finds it.
- External collaborators (the authlib OAuth2 session, the network transport)
  are modelled as explicit inputs: the nonce and URI produced by
  `create_authorization_url`, the token map returned by the token endpoint or
  the refresh endpoint, and the stream of JSON envelopes returned by the
  network (a function from the index of the request to the parsed response).
- Network effects are made observable by counting: every result carries the
  number of requests that were issued before it was produced.
- The recursive coroutine `fetch_page` is embedded with an explicit fuel
  argument (one unit per network request); exhausted fuel is a distinguished
  outcome, never identified with any behaviour of the source.
-/

namespace Toucan

/-! ## Secret store (`SecretsKeeper.save` / `SecretsKeeper.load`) -/

/-- A value persisted in the secret store: the Python code stores plain dicts,
either `{'state': nonce}` or an OAuth token map with keys `access_token`,
`refresh_token`, `expires_at`.  Absent dict keys are `none`. -/
structure StoredValue where
  state : Option String := none
  access_token : Option String := none
  refresh_token : Option String := none
  expires_at : Option Int := none
deriving Repr, DecidableEq

/-- The secret store: an association from connector identity to the stored
dict.  `save` overwrites the whole value under the key. -/
abbrev Store := List (String × StoredValue)

def save (store : Store) (key : String) (value : StoredValue) : Store :=
  (key, value) :: store

def load (store : Store) (key : String) : Option StoredValue :=
  match store.find? (fun kv => kv.1 == key) with
  | some kv => some kv.2
  | none => none

/-! ## `OAuth2Connector` (oauth2connector.py) -/

structure OAuth2Connector where
  connector_name : String
  authorization_url : String
  scope : String
  client_id : String
  client_secret : String
  redirect_uri : String
  token_url : String
deriving Repr, DecidableEq

/-- `OAuth2Connector.build_authorization_url`: the authlib call
`client.create_authorization_url` returns `(uri, state)`; both are inputs of
the model.  The source then runs
`self.secrets_keeper.save(self._connector_name, {'state': state})` and
returns the uri. -/
def build_authorization_url (conn : OAuth2Connector) (store : Store)
    (uri nonce : String) : String × Store :=
  (uri, save store conn.connector_name { state := some nonce })

/-- Outcome of `OAuth2Connector.retrieve_tokens`.  Every constructor carries
the resulting secret store and the number of token-endpoint exchange
requests (`client.fetch_token` calls) that were issued. -/
inductive RetrieveTokensResult where
  /-- exchange performed, token saved -/
  | ok (store : Store) (exchanges : Nat)
  /-- the nonce assert failed (`AuthMismatchError` in the spec taxonomy) -/
  | authMismatch (store : Store) (exchanges : Nat)
  /-- `load(...)['state']` failed: nothing stored, or the stored dict has no
  `state` key -/
  | keyError (store : Store) (exchanges : Nat)
deriving Repr, DecidableEq

/-- `OAuth2Connector.retrieve_tokens`: the `state` query parameter parsed out
of the callback URL is the input `response_state`; the token map that the
token endpoint would return is the input `fetched_token`.  The source
asserts `load(name)['state'] == url_params['state'][0]`, then fetches the
token and saves it under the connector name. -/
def retrieve_tokens (conn : OAuth2Connector) (store : Store)
    (response_state : String) (fetched_token : StoredValue) :
    RetrieveTokensResult :=
  match load store conn.connector_name with
  | none => .keyError store 0
  | some v =>
    match v.state with
    | none => .keyError store 0
    | some s =>
      if s = response_state then
        .ok (save store conn.connector_name fetched_token) 1
      else
        .authMismatch store 0

/-- Outcome of `OAuth2Connector.get_access_token`.  Every constructor carries
the resulting secret store and the number of refresh requests
(`client.refresh_token` calls) that were issued. -/
inductive AccessTokenResult where
  | ok (access_token : String) (store : Store) (refresh_calls : Nat)
  /-- `NoOAuth2RefreshToken`: expired token without a `refresh_token` key -/
  | noRefreshToken (store : Store) (refresh_calls : Nat)
  /-- `load` produced no dict at all: the Python code then evaluates
  `'expires_at' in token` on a non-dict and raises `TypeError` -/
  | typeError (store : Store) (refresh_calls : Nat)
  /-- the final `load(...)['access_token']` lookup failed -/
  | keyError (store : Store) (refresh_calls : Nat)
deriving Repr, DecidableEq

/-- `OAuth2Connector.get_access_token`: `now` stands for `time()`, and
`refreshed_token` is the token map the refresh endpoint would return.  The
source loads the token, refreshes and saves it when
`'expires_at' in token and token['expires_at'] < time()`, and finally
returns `self.secrets_keeper.load(self._connector_name)['access_token']`
(a fresh load). -/
def get_access_token (conn : OAuth2Connector) (store : Store) (now : Int)
    (refreshed_token : StoredValue) : AccessTokenResult :=
  match load store conn.connector_name with
  | none => .typeError store 0
  | some token =>
    let expired : Bool := match token.expires_at with
      | some e => decide (e < now)
      | none => false
    if expired then
      match token.refresh_token with
      | none => .noRefreshToken store 0
      | some _ =>
        let store2 := save store conn.connector_name refreshed_token
        match load store2 conn.connector_name with
        | none => .typeError store2 1
        | some t2 =>
          match t2.access_token with
          | some a => .ok a store2 1
          | none => .keyError store2 1
    else
      match load store conn.connector_name with
      | none => .typeError store 0
      | some t2 =>
        match t2.access_token with
        | some a => .ok a store 0
        | none => .keyError store 0

/-! ## Aircall page envelopes (aircall_oauth_connector.py) -/

/-- The `meta` object of an Aircall page envelope. -/
structure Meta where
  next_page_link : Option String := none
  current_page : Int := 0
deriving Repr, DecidableEq

/-- One parsed JSON envelope `{error?, meta?, <dataset>: [records]}`.  The
dataset-keyed record array is abstracted to a list of opaque records;
envelopes that have no such key carry `[]`. -/
structure ApiResponse where
  error : Option String := none
  meta : Option Meta := none
  records : List String := []
deriving Repr, DecidableEq

/-- Python truthiness of `data.get('error')`: present and non-empty. -/
def is_aircall_error (r : ApiResponse) : Bool :=
  match r.error with
  | some s => s != ""
  | none => false

/-- The decision taken by the tail of `fetch_page` after the error-handling
block: append the current envelope to the accumulator, read
`meta.next_page_link`, and either stop or continue at
`meta['current_page'] + 1`.  When `limit > -1` the pass counter is
incremented first and continuation additionally requires
`current_pass < limit`. -/
inductive PageStep where
  | done (data_list : List ApiResponse)
  | next (data_list : List ApiResponse) (current_pass : Int) (new_page : Int)
deriving Repr, DecidableEq

def pagination_step (data : ApiResponse) (data_list : List ApiResponse)
    (limit current_pass : Int) : PageStep :=
  let data_list := data_list ++ [data]
  let next_page_link : Option String :=
    match data.meta with
    | some m => m.next_page_link
    | none => none
  if limit > -1 then
    let current_pass := current_pass + 1
    if next_page_link.isSome ∧ current_pass < limit then
      match data.meta with
      | some m => .next data_list current_pass (m.current_page + 1)
      | none => .done data_list
    else .done data_list
  else
    if next_page_link.isSome then
      match data.meta with
      | some m => .next data_list current_pass (m.current_page + 1)
      | none => .done data_list
    else .done data_list

/-- Outcome of `fetch_page`.  `next_idx` is the index into the response
stream after the call, i.e. the total number of network requests issued so
far; `raised` models the `raise Exception(f'Aborting Aircall requests due to
{aircall_error}')` and carries the error payload of the last attempt. -/
inductive FetchOutcome where
  | ok (data_list : List ApiResponse) (next_idx : Nat)
  | raised (msg : String) (next_idx : Nat)
  | outOfFuel
deriving Repr, DecidableEq

/-- `fetch_page(dataset, data_list, session, limit, current_pass, new_page,
delay_counter)`: `net i` is the parsed envelope returned by the `i`-th
network request of the traversal and `idx` the index of the next request.
Control structure of the source: fetch one envelope; if its `error` field is
truthy, sleep and retry the same request with `delay_counter + 1` while
`delay_counter < 3` (`max_num_of_retries`), else raise; after the retry
returns (and on the success path) fall through to appending the *current*
envelope and to the pagination decision (`pagination_step`); pagination
recursion restarts `delay_counter` at its default `0`. -/
def fetch_page (net : Nat → ApiResponse) :
    Nat → Nat → List ApiResponse → Int → Int → Int → Nat → FetchOutcome
  | 0, _, _, _, _, _, _ => .outOfFuel
  | fuel + 1, idx, data_list, limit, current_pass, new_page, delay_counter =>
    let data := net idx
    if is_aircall_error data then
      if delay_counter < 3 then
        match fetch_page net fuel (idx + 1) data_list limit current_pass
            new_page (delay_counter + 1) with
        | .ok dl idx2 =>
          match pagination_step data dl limit current_pass with
          | .done dl2 => .ok dl2 idx2
          | .next dl2 cp2 np2 => fetch_page net fuel idx2 dl2 limit cp2 np2 0
        | r => r
      else
        .raised (data.error.getD "") (idx + 1)
    else
      match pagination_step data data_list limit current_pass with
      | .done dl2 => .ok dl2 (idx + 1)
      | .next dl2 cp2 np2 => fetch_page net fuel (idx + 1) dl2 limit cp2 np2 0

/-- Number of non-error envelopes (successful pages) among the `len`
responses of the stream starting at index `lo`. -/
def count_success (net : Nat → ApiResponse) : Nat → Nat → Nat
  | _, 0 => 0
  | lo, len + 1 =>
    (if is_aircall_error (net lo) then 0 else 1) + count_success net (lo + 1) len

/-! ## Connector entry points (`Aircall_oauthConnector`) -/

inductive AircallDataset where
  | calls
  | tags
  | users
deriving Repr, DecidableEq

/-- Outcome of a connector operation.  `network_calls` counts every request
issued (token refresh plus page fetches); `noCredentials` models the
connector's own `raise NoCredentialsError('No credentials')`, taken when
`get_access_token` returned a falsy (empty) access token, while
`tokenFailure` models any exception escaping `get_access_token` itself
(`TypeError`, `KeyError`, `NoOAuth2RefreshToken`). -/
inductive RunOutcome (α : Type) where
  | ok (val : α) (network_calls : Nat)
  | noCredentials (network_calls : Nat)
  | tokenFailure (network_calls : Nat)
  | raised (msg : String) (network_calls : Nat)
  | outOfFuel
deriving Repr, DecidableEq

/-- `Aircall_oauthConnector._get_tags`: obtain the access token, then
`fetch_page(dataset, [], session, limit, 1)` — note the initial pass counter
`1` — and concatenate `data['tags']` over the raw envelopes. -/
def get_tags_model (conn : OAuth2Connector) (store : Store) (now : Int)
    (refreshed_token : StoredValue) (net : Nat → ApiResponse) (fuel : Nat)
    (limit : Int) : RunOutcome (List String) :=
  match get_access_token conn store now refreshed_token with
  | .ok tok _ r =>
    if tok = "" then .noCredentials r
    else
      match fetch_page net fuel 0 [] limit 1 1 0 with
      | .ok raw idx2 => .ok (raw.flatMap (fun d => d.records)) (r + idx2)
      | .raised msg idx2 => .raised msg (r + idx2)
      | .outOfFuel => .outOfFuel
  | .noRefreshToken _ r => .tokenFailure r
  | .typeError _ r => .tokenFailure r
  | .keyError _ r => .tokenFailure r

/-- `Aircall_oauthConnector._get_data`: obtain the access token, then gather
`fetch_page('teams', [], session, limit, 0)` and
`fetch_page(dataset, [], session, limit, 0)` — both with initial pass
counter `0` — and apply the per-dataset formatters.  The two logically
concurrent traversals are sequentialised: the `teams` traversal consumes the
stream first, the dataset traversal continues at the index where it left
off.  `fmt_teams` models `DICTIONARY_OF_FORMATTERS['teams']` (one team
object expands to a list of rows) and `fmt_var` the dataset's formatter. -/
def get_data_model (conn : OAuth2Connector) (store : Store) (now : Int)
    (refreshed_token : StoredValue) (fmt_teams : String → List String)
    (fmt_var : String → String) (net : Nat → ApiResponse) (fuel : Nat)
    (limit : Int) : RunOutcome (List String × List String) :=
  match get_access_token conn store now refreshed_token with
  | .ok tok _ r =>
    if tok = "" then .noCredentials r
    else
      match fetch_page net fuel 0 [] limit 0 1 0 with
      | .ok team_data idx1 =>
        match fetch_page net fuel idx1 [] limit 0 1 0 with
        | .ok variable_data idx2 =>
          .ok
            (team_data.flatMap (fun d => d.records.flatMap fmt_teams),
              variable_data.flatMap (fun d => d.records.map fmt_var))
            (r + idx2)
        | .raised msg idx2 => .raised msg (r + idx2)
        | .outOfFuel => .outOfFuel
      | .raised msg idx1 => .raised msg (r + idx1)
      | .outOfFuel => .outOfFuel
  | .noRefreshToken _ r => .tokenFailure r
  | .typeError _ r => .tokenFailure r
  | .keyError _ r => .tokenFailure r

/-! ## Result assembly (`_retrieve_data`)

The helpers `build_empty_df`, `build_df` and the formatter dictionary live in
`aircall_oauth/helpers.py`, which is not part of the sources at hand; they
are modelled from the spec below. -/

/-- A dataframe: a fixed column schema and the appended rows. -/
structure DataFrame where
  columns : List String
  rows : List String
deriving Repr, DecidableEq

/-- Modelled from the spec: the fixed column set of the canonical
empty-schema template for each dataset (`helpers.py` is missing; the spec
fixes only that the column set is fixed per dataset, not the names, so a
representative fixed assignment is used). -/
def columns_for : AircallDataset → List String
  | .calls => ["id", "direction", "duration", "team", "user_name"]
  | .tags => ["id", "name", "color", "description"]
  | .users => ["id", "name", "email", "team"]

/-- Modelled from the spec: `build_empty_df` (missing `helpers.py`) produces
the canonical empty-schema template — the fixed column set for the dataset
and no rows. -/
def build_empty_df (dataset : AircallDataset) : DataFrame :=
  { columns := columns_for dataset, rows := [] }

/-- Modelled from the spec: `build_df` (missing `helpers.py`) starts from
the canonical empty-schema template for the dataset and appends the
normalized rows. -/
def build_df (dataset : AircallDataset) (rows : List String) : DataFrame :=
  { columns := columns_for dataset, rows := rows }

/-- Modelled from the spec: `pd.concat([empty_df, pd.DataFrame(rows)])` —
the empty-schema template keeps its column set and the normalized rows are
appended. -/
def concat_df (df : DataFrame) (rows : List String) : DataFrame :=
  { columns := df.columns, rows := df.rows ++ rows }

/-- `Aircall_oauthConnector._retrieve_data`: dispatch on the dataset; when
`limit != 0` run the fetches, otherwise keep the empty placeholder
dataframes; always assemble on top of `build_empty_df dataset`. -/
def retrieve_data_model (conn : OAuth2Connector) (store : Store) (now : Int)
    (refreshed_token : StoredValue) (fmt_teams : String → List String)
    (fmt_var : String → String) (net : Nat → ApiResponse) (fuel : Nat)
    (dataset : AircallDataset) (limit : Int) : RunOutcome DataFrame :=
  let empty_df := build_empty_df dataset
  if dataset = AircallDataset.tags then
    if limit ≠ 0 then
      match get_tags_model conn store now refreshed_token net fuel limit with
      | .ok res n => .ok (concat_df empty_df res) n
      | .noCredentials n => .noCredentials n
      | .tokenFailure n => .tokenFailure n
      | .raised m n => .raised m n
      | .outOfFuel => .outOfFuel
    else .ok (concat_df empty_df []) 0
  else
    if limit ≠ 0 then
      match get_data_model conn store now refreshed_token fmt_teams fmt_var net
          fuel limit with
      | .ok (team_rows, variable_rows) n =>
        .ok (build_df dataset (team_rows ++ variable_rows)) n
      | .noCredentials n => .noCredentials n
      | .tokenFailure n => .tokenFailure n
      | .raised m n => .raised m n
      | .outOfFuel => .outOfFuel
    else .ok (build_df dataset ([] ++ [])) 0

/-! ## Concrete instances for counterexamples and witnesses -/

def exConn : OAuth2Connector :=
  { connector_name := "aircall"
    authorization_url := "https://dashboard-v2.aircall.io/oauth/authorize"
    scope := "public_api"
    client_id := "cid"
    client_secret := "csecret"
    redirect_uri := "https://redirect"
    token_url := "https://api.aircall.io/v1/oauth/token" }

def exToken : StoredValue :=
  { access_token := some "atok", refresh_token := some "rtok",
    expires_at := some 100 }

def exStore : Store := save [] "aircall" exToken

/-- An error envelope with no `meta` (the usual Aircall error response). -/
def errResp : ApiResponse := { error := some "rate limited" }

/-- A successful last page: records, no `next_page_link`. -/
def lastPage : ApiResponse := { records := ["rec"] }

/-- A network whose first three responses are error envelopes and whose
fourth response is a successful final page. -/
def threeErrNet : Nat → ApiResponse := fun i =>
  if i < 3 then errResp else lastPage

/-- A network that always returns an error envelope. -/
def allErrNet : Nat → ApiResponse := fun _ => errResp

/-- A network of unboundedly many successful pages, each advertising a
`next_page_link`. -/
def allPagesNet : Nat → ApiResponse := fun i =>
  { meta := some { next_page_link := some "https://next", current_page := (i : Int) + 1 },
    records := ["rec"] }

/-- An adversarial network: the first response is an error envelope that
itself carries pagination metadata (`meta.next_page_link` present), all
later responses are successful pages with a `next_page_link`. -/
def advNet : Nat → ApiResponse := fun i =>
  if i = 0 then
    { error := some "boom",
      meta := some { next_page_link := some "https://next", current_page := 1 } }
  else
    { meta := some { next_page_link := some "https://next", current_page := (i : Int) + 1 },
      records := ["rec"] }

/-- A network whose first two responses are error envelopes and whose third
response is a successful final page. -/
def twoErrNet : Nat → ApiResponse := fun i =>
  if i < 2 then errResp else lastPage

/-- A store holding only an authorization nonce under the connector key. -/
def exStateStore : Store := save [] "aircall" { state := some "n1" }

/-- The token map returned by a refresh call. -/
def exRefreshed : StoredValue :=
  { access_token := some "newtok", refresh_token := some "rtok2",
    expires_at := some 500 }

/-! ## Unfolding lemmas for `fetch_page` -/

/-- One step of `fetch_page` on an error envelope within the retry bound:
retry with `delay_counter + 1`, then fall through to the pagination decision
taken on the *error* envelope. -/
theorem fetch_page_err_step (net : Nat → ApiResponse) (fuel idx : Nat)
    (dl : List ApiResponse) (limit cp np : Int) (d : Nat)
    (h : is_aircall_error (net idx) = true) (hd : d < 3) :
    fetch_page net (fuel + 1) idx dl limit cp np d =
      match fetch_page net fuel (idx + 1) dl limit cp np (d + 1) with
      | .ok dl2 idx2 =>
        match pagination_step (net idx) dl2 limit cp with
        | .done dl3 => .ok dl3 idx2
        | .next dl3 cp2 np2 => fetch_page net fuel idx2 dl3 limit cp2 np2 0
      | r => r := by
  rw [fetch_page]
  simp [h, hd]

/-- One step of `fetch_page` on an error envelope with the retry budget
exhausted: raise, carrying the error payload of the current attempt. -/
theorem fetch_page_err_raise (net : Nat → ApiResponse) (fuel idx : Nat)
    (dl : List ApiResponse) (limit cp np : Int) (d : Nat)
    (h : is_aircall_error (net idx) = true) (hd : ¬ d < 3) :
    fetch_page net (fuel + 1) idx dl limit cp np d =
      .raised ((net idx).error.getD "") (idx + 1) := by
  rw [fetch_page]
  simp [h, hd]

/-- One step of `fetch_page` on a successful envelope: straight to the
pagination decision. -/
theorem fetch_page_success_step (net : Nat → ApiResponse) (fuel idx : Nat)
    (dl : List ApiResponse) (limit cp np : Int) (d : Nat)
    (h : is_aircall_error (net idx) = false) :
    fetch_page net (fuel + 1) idx dl limit cp np d =
      match pagination_step (net idx) dl limit cp with
      | .done dl2 => .ok dl2 (idx + 1)
      | .next dl2 cp2 np2 => fetch_page net fuel (idx + 1) dl2 limit cp2 np2 0 := by
  rw [fetch_page]
  simp [h]

/-- An envelope without `meta` never continues pagination. -/
theorem pagination_step_meta_none (data : ApiResponse) (dl : List ApiResponse)
    (limit cp : Int) (h : data.meta = none) :
    pagination_step data dl limit cp = .done (dl ++ [data]) := by
  simp [pagination_step, h]

/-! ## Claim theorems -/

/-- C1, counterexample: a page request whose first three attempts return
error envelopes does *not* make the driver raise, and further fetches are
performed: the fourth attempt is issued (`next_idx = 4`), and when it
succeeds the traversal returns normally.  So "3 consecutive error envelopes
raise" and "the retry bound is 3 attempts total" are both false of the
code. -/
theorem three_errors_do_not_raise :
    fetch_page threeErrNet 10 0 [] 1 0 1 0 =
      .ok [lastPage, errResp, errResp, errResp] 4 := by decide

/-- C1 (amended): four consecutive error envelopes (one initial attempt plus
the three retries allowed by `delay_counter < max_num_of_retries`) make
`fetch_page` raise, carrying the error payload of the last (fourth) attempt,
after exactly four fetches (`next_idx = idx + 4`) and no further attempts
for that page. -/
theorem fetch_page_four_errors_raise (net : Nat → ApiResponse) (f idx : Nat)
    (dl : List ApiResponse) (limit cp np : Int)
    (herr : ∀ j, j < 4 → is_aircall_error (net (idx + j)) = true) :
    fetch_page net (f + 4) idx dl limit cp np 0 =
      .raised ((net (idx + 3)).error.getD "") (idx + 4) := by
  have h0 : is_aircall_error (net idx) = true := by simpa using herr 0 (by omega)
  have h1 := herr 1 (by omega)
  have h2 := herr 2 (by omega)
  have h3 := herr 3 (by omega)
  rw [show f + 4 = (f + 3) + 1 from rfl,
    fetch_page_err_step net (f + 3) idx dl limit cp np 0 h0 (by omega),
    show f + 3 = (f + 2) + 1 from rfl,
    fetch_page_err_step net (f + 2) (idx + 1) dl limit cp np 1 h1 (by omega),
    show f + 2 = (f + 1) + 1 from rfl,
    fetch_page_err_step net (f + 1) (idx + 2) dl limit cp np 2 h2 (by omega),
    fetch_page_err_raise net f (idx + 3) dl limit cp np 3 h3 (by omega)]

theorem fetch_page_four_errors_raise_witness :
    fetch_page allErrNet (6 + 4) 0 [] 1 0 1 0 = .raised "rate limited" (0 + 4) :=
  fetch_page_four_errors_raise allErrNet 6 0 [] 1 0 1 (by decide)

/-- C2, counterexample: with a valid token persisted under the connector
identity, `build_authorization_url` replaces it by `{'state': nonce}` under
the same key — the stored token is not left unchanged; it is lost. -/
theorem build_authorization_url_token_lost :
    load exStore "aircall" = some exToken ∧
    load (build_authorization_url exConn exStore "https://uri" "nonce1").2
        "aircall" = some { state := some "nonce1" } ∧
    load (build_authorization_url exConn exStore "https://uri" "nonce1").2
        "aircall" ≠ some exToken := by decide

/-- C2 (amended): `build_authorization_url` returns the authorization URI
and persists the `AuthorizationState` nonce keyed by the connector identity,
but it does so by saving `{'state': nonce}` as the whole stored value under
that key, so any previously stored token under the connector identity is
overwritten rather than left unchanged. -/
theorem build_authorization_url_saves_nonce_only (conn : OAuth2Connector)
    (store : Store) (uri nonce : String) :
    (build_authorization_url conn store uri nonce).1 = uri ∧
    load (build_authorization_url conn store uri nonce).2 conn.connector_name =
      some { state := some nonce } := by
  refine ⟨rfl, ?_⟩
  simp [build_authorization_url, load, save, List.find?]

/-- C3: `_retrieve_data` with `limit == 0` issues zero network calls and
returns exactly the empty-schema result for the dataset, for every dataset
and every environment. -/
theorem retrieve_data_limit_zero (conn : OAuth2Connector) (store : Store)
    (now : Int) (rt : StoredValue) (fmt_teams : String → List String)
    (fmt_var : String → String) (net : Nat → ApiResponse) (fuel : Nat)
    (dataset : AircallDataset) :
    retrieve_data_model conn store now rt fmt_teams fmt_var net fuel dataset 0 =
      .ok (build_empty_df dataset) 0 := by
  cases dataset <;>
    simp [retrieve_data_model, concat_df, build_df, build_empty_df]

/-- C5: when the nonce in the authorization response differs from the
persisted `AuthorizationState` nonce, `retrieve_tokens` fails on the nonce
assertion (`AuthMismatchError` in the spec taxonomy), performs no
token-endpoint exchange, and leaves the secret store unchanged. -/
theorem retrieve_tokens_nonce_mismatch (conn : OAuth2Connector)
    (store : Store) (v : StoredValue) (s response_state : String)
    (fetched : StoredValue)
    (hload : load store conn.connector_name = some v)
    (hstate : v.state = some s) (hne : s ≠ response_state) :
    retrieve_tokens conn store response_state fetched =
      .authMismatch store 0 := by
  simp [retrieve_tokens, hload, hstate, hne]

theorem retrieve_tokens_nonce_mismatch_witness :
    retrieve_tokens exConn exStateStore "n2" exToken =
      .authMismatch exStateStore 0 :=
  retrieve_tokens_nonce_mismatch exConn exStateStore { state := some "n1" }
    "n1" "n2" exToken (by decide) (by decide) (by decide)

/-- C6: with a stored token whose `expires_at` is in the past and which has
a refresh token, `get_access_token` issues exactly one refresh request,
persists the refreshed token under the same connector-identity key, and
returns the refreshed token's access token. -/
theorem get_access_token_expired_refreshes (conn : OAuth2Connector)
    (store : Store) (tok refreshed : StoredValue) (e now : Int) (r a : String)
    (hload : load store conn.connector_name = some tok)
    (hexp : tok.expires_at = some e) (hpast : e < now)
    (href : tok.refresh_token = some r)
    (hacc : refreshed.access_token = some a) :
    get_access_token conn store now refreshed =
      .ok a (save store conn.connector_name refreshed) 1 := by
  simp only [get_access_token, hload, hexp, href, decide_eq_true_eq]
  rw [if_pos hpast]
  simp [hacc, load, save, List.find?]

theorem get_access_token_expired_refreshes_witness :
    get_access_token exConn exStore 200 exRefreshed =
      .ok "newtok" (save exStore "aircall" exRefreshed) 1 :=
  get_access_token_expired_refreshes exConn exStore exToken exRefreshed 100
    200 "rtok" "newtok" (by decide) (by decide) (by decide) (by decide)
    (by decide)

/-- C7: with no token stored under the connector identity, the failure
surfaces before any network request (`network_calls = 0`), but it is not the
connector's `NoCredentialsError`: `get_access_token` evaluates
`'expires_at' in token` on the result of loading the absent entry and fails
there (`TypeError` in Python), before the `if not access_token:` guard in
`_get_data` that raises `NoCredentialsError` can run. -/
theorem get_data_no_stored_token :
    get_data_model exConn [] 200 exRefreshed (fun _ => []) id allPagesNet
        10 1 = .tokenFailure 0 ∧
    get_access_token exConn [] 200 exRefreshed = .typeError [] 0 := by decide

/-- A run of `k` error envelopes (without `meta`) recovered by a successful
final page (without `next_page_link`) within the retry budget: the
traversal returns normally, and every unwinding retry frame appends its own
error envelope *after* the successful page, so the accumulator ends with
the error envelopes in reverse order of receipt. -/
theorem fetch_page_errors_then_success (net : Nat → ApiResponse) :
    ∀ (k d fuel idx : Nat) (dl : List ApiResponse) (limit cp np : Int),
      k + d ≤ 3 → k < fuel →
      (∀ j, j < k →
        is_aircall_error (net (idx + j)) = true ∧ (net (idx + j)).meta = none) →
      is_aircall_error (net (idx + k)) = false →
      (net (idx + k)).meta = none →
      fetch_page net fuel idx dl limit cp np d =
        .ok (dl ++ net (idx + k) ::
              ((List.range k).map (fun j => net (idx + j))).reverse)
          (idx + k + 1) := by
  intro k
  induction k with
  | zero =>
    intro d fuel idx dl limit cp np hkd hfuel herr hsucc hmeta
    obtain ⟨fuel, rfl⟩ : ∃ f, fuel = f + 1 := ⟨fuel - 1, by omega⟩
    rw [Nat.add_zero] at hsucc hmeta
    rw [fetch_page_success_step net fuel idx dl limit cp np d hsucc,
      pagination_step_meta_none _ _ _ _ hmeta]
    simp
  | succ k ih =>
    intro d fuel idx dl limit cp np hkd hfuel herr hsucc hmeta
    obtain ⟨fuel, rfl⟩ : ∃ f, fuel = f + 1 := ⟨fuel - 1, by omega⟩
    obtain ⟨h0, h0m⟩ : is_aircall_error (net idx) = true ∧ (net idx).meta = none := by
      simpa using herr 0 (by omega)
    have hidx : idx + 1 + k = idx + (k + 1) := by omega
    have hrec := ih (d + 1) fuel (idx + 1) dl limit cp np (by omega) (by omega)
      (fun j hj => by
        have h := herr (j + 1) (by omega)
        have e : idx + (j + 1) = idx + 1 + j := by omega
        rwa [e] at h)
      (by rwa [hidx]) (by rwa [hidx])
    rw [fetch_page_err_step net fuel idx dl limit cp np d h0 (by omega), hrec]
    simp only [pagination_step_meta_none _ _ _ _ h0m]
    have hlist :
        ((List.range (k + 1)).map (fun j => net (idx + j))).reverse =
          ((List.range k).map (fun j => net (idx + 1 + j))).reverse ++
            [net idx] := by
      rw [List.range_succ_eq_map, List.map_cons, List.reverse_cons,
        List.map_map]
      have : (fun j => net (idx + j)) ∘ Nat.succ =
          fun j => net (idx + 1 + j) := by
        funext j
        simp only [Function.comp]
        exact congrArg net (by omega)
      rw [this]
      simp
    rw [hlist, hidx]
    simp [List.append_assoc]

/-- C8: a page request whose first two attempts return error envelopes and
whose third attempt succeeds (within the retry bound of 3 retries) returns
the successful page's data and does not raise: the result is a normal `ok`
containing the successful envelope (followed, per the fall-through
behaviour of the retry frames, by the two error envelopes). -/
theorem fetch_page_two_errors_then_success (net : Nat → ApiResponse)
    (fuel idx : Nat) (dl : List ApiResponse) (limit cp np : Int)
    (hfuel : 2 < fuel)
    (h0 : is_aircall_error (net idx) = true) (h0m : (net idx).meta = none)
    (h1 : is_aircall_error (net (idx + 1)) = true)
    (h1m : (net (idx + 1)).meta = none)
    (h2 : is_aircall_error (net (idx + 2)) = false)
    (h2m : (net (idx + 2)).meta = none) :
    fetch_page net fuel idx dl limit cp np 0 =
      .ok (dl ++ [net (idx + 2), net (idx + 1), net idx]) (idx + 3) := by
  have h := fetch_page_errors_then_success net 2 0 fuel idx dl limit cp np
    (by omega) hfuel
    (fun j hj => by
      interval_cases j
      · simpa using ⟨h0, h0m⟩
      · exact ⟨h1, h1m⟩)
    h2 h2m
  simpa [List.range_succ] using h

theorem fetch_page_two_errors_then_success_witness :
    fetch_page twoErrNet 10 0 [] 1 0 1 0 =
      .ok ([] ++ [twoErrNet (0 + 2), twoErrNet (0 + 1), twoErrNet 0]) (0 + 3) :=
  fetch_page_two_errors_then_success twoErrNet 10 0 [] 1 0 1 (by omega)
    (by decide) (by decide) (by decide) (by decide) (by decide) (by decide)

/-- C9: for every `k ≥ 1` (within the retry budget `k ≤ 3`), a page request
answered by `k` consecutive error envelopes and then a success returns an
accumulator that contains, in addition to the successful page's envelope,
each of the `k` error envelopes: every unwinding recursion frame appends
its own error envelope after the successful retry returns, so the result is
the successful envelope followed by the `k` error envelopes in reverse
order of receipt — not a list of successful page payloads only. -/
theorem fetch_page_error_envelopes_accumulated (net : Nat → ApiResponse)
    (k fuel idx : Nat) (dl : List ApiResponse) (limit cp np : Int)
    (hk1 : 1 ≤ k) (hk3 : k ≤ 3) (hfuel : k < fuel)
    (herr : ∀ j, j < k →
      is_aircall_error (net (idx + j)) = true ∧ (net (idx + j)).meta = none)
    (hsucc : is_aircall_error (net (idx + k)) = false)
    (hmeta : (net (idx + k)).meta = none) :
    fetch_page net fuel idx dl limit cp np 0 =
      .ok (dl ++ net (idx + k) ::
            ((List.range k).map (fun j => net (idx + j))).reverse)
        (idx + k + 1) :=
  fetch_page_errors_then_success net k 0 fuel idx dl limit cp np (by omega)
    hfuel herr hsucc hmeta

theorem fetch_page_error_envelopes_accumulated_witness :
    fetch_page threeErrNet 10 0 [] 5 0 1 0 =
      .ok ([] ++ threeErrNet (0 + 3) ::
            ((List.range 3).map (fun j => threeErrNet (0 + j))).reverse)
        (0 + 3 + 1) :=
  fetch_page_error_envelopes_accumulated threeErrNet 3 10 0 [] 5 0 1
    (by omega) (by omega) (by omega) (by decide) (by decide) (by decide)

/-- Inversion of the pagination decision when the limit is bounded
(`limit > -1`): continuing to a next page requires `meta` to be present
with a `next_page_link` and increments the pass counter subject to
`current_pass + 1 < limit`. -/
theorem pagination_step_next_inv (data : ApiResponse) (dl : List ApiResponse)
    (limit cp : Int) (dl2 : List ApiResponse) (cp2 np2 : Int)
    (hlim : (-1 : Int) < limit)
    (h : pagination_step data dl limit cp = .next dl2 cp2 np2) :
    dl2 = dl ++ [data] ∧ cp2 = cp + 1 ∧ cp + 1 < limit := by
  cases hm : data.meta with
  | none =>
    rw [pagination_step_meta_none _ _ _ _ hm] at h
    exact absurd h (by simp)
  | some m =>
    simp only [pagination_step, hm] at h
    rw [if_pos (show limit > -1 from hlim)] at h
    by_cases hc : m.next_page_link.isSome ∧ cp + 1 < limit
    · rw [if_pos hc] at h
      injection h with hd1 hd2 hd3
      exact ⟨hd1.symm, hd2.symm, hc.2⟩
    · rw [if_neg hc] at h
      exact absurd h (by simp)

/-- Pass-count invariant of `fetch_page`: provided every error envelope
carries no `meta`, a traversal that starts at pass counter `cp` with
`0 ≤ cp < limit` and returns normally consumes at most `limit - cp`
successful pages (non-error envelopes). -/
theorem fetch_page_pass_bound (net : Nat → ApiResponse)
    (hmeta : ∀ i, is_aircall_error (net i) = true → (net i).meta = none) :
    ∀ (fuel idx : Nat) (dl : List ApiResponse) (limit cp np : Int) (d : Nat)
      (dlist : List ApiResponse) (idx2 : Nat),
      0 ≤ cp → cp < limit →
      fetch_page net fuel idx dl limit cp np d = .ok dlist idx2 →
      idx ≤ idx2 ∧ (count_success net idx (idx2 - idx) : Int) ≤ limit - cp := by
  intro fuel
  induction fuel with
  | zero =>
    intro idx dl limit cp np d dlist idx2 hcp0 hcp h
    exact absurd h (by rw [fetch_page]; simp)
  | succ fuel ih =>
    intro idx dl limit cp np d dlist idx2 hcp0 hcp h
    by_cases herr : is_aircall_error (net idx) = true
    · by_cases hd : d < 3
      · rw [fetch_page_err_step net fuel idx dl limit cp np d herr hd] at h
        cases hrec : fetch_page net fuel (idx + 1) dl limit cp np (d + 1) with
        | ok dl2 i2 =>
          simp only [hrec, pagination_step_meta_none _ _ _ _ (hmeta idx herr),
            FetchOutcome.ok.injEq] at h
          obtain ⟨hdl, hi⟩ := h
          obtain ⟨hle, hcnt⟩ :=
            ih (idx + 1) dl limit cp np (d + 1) dl2 i2 hcp0 hcp hrec
          have hn : idx2 - idx = (idx2 - (idx + 1)) + 1 := by omega
          refine ⟨by omega, ?_⟩
          rw [hn]
          simp only [count_success, herr, if_true]
          subst hi
          omega
        | raised m i2 =>
          rw [hrec] at h
          exact absurd h (by simp)
        | outOfFuel =>
          rw [hrec] at h
          exact absurd h (by simp)
      · rw [fetch_page_err_raise net fuel idx dl limit cp np d herr hd] at h
        exact absurd h (by simp)
    · have herr' : is_aircall_error (net idx) = false := by
        simpa using herr
      rw [fetch_page_success_step net fuel idx dl limit cp np d herr'] at h
      cases hps : pagination_step (net idx) dl limit cp with
      | done dl2 =>
        simp only [hps, FetchOutcome.ok.injEq] at h
        obtain ⟨hdl, hi⟩ := h
        have hn : idx2 - idx = 1 := by omega
        refine ⟨by omega, ?_⟩
        rw [hn]
        simp only [count_success, herr', Bool.false_eq_true, if_false]
        omega
      | next dl2 cp2 np2 =>
        simp only [hps] at h
        obtain ⟨hdl2, hcp2, hlt⟩ :=
          pagination_step_next_inv _ _ _ _ _ _ _ (by omega) hps
        obtain ⟨hle, hcnt⟩ :=
          ih (idx + 1) dl2 limit cp2 np2 0 dlist idx2 (by omega) (by omega) h
        have hn : idx2 - idx = (idx2 - (idx + 1)) + 1 := by omega
        refine ⟨by omega, ?_⟩
        rw [hn]
        simp only [count_success, herr', Bool.false_eq_true, if_false]
        omega

/-- C4, counterexample: with limit `N = 2` and pass counter starting at `0`,
a traversal in which the first response is an error envelope that itself
carries a `next_page_link` fetches 3 successful pages (4 requests in all):
after the successful retry chain returns, the unwound retry frame falls
through to the pagination decision taken on the *error* envelope and
resumes the traversal, so more than `N` pages are fetched. -/
theorem limit_bound_violated_by_error_meta :
    fetch_page advNet 10 0 [] 2 0 1 0 =
      .ok [advNet 1, advNet 2, advNet 0, advNet 3] 4 ∧
    count_success advNet 0 4 = 3 := by decide

/-- C4 (amended): for every positive limit `N`, along every traversal in
which error envelopes carry no `meta` (in particular no `next_page_link`),
at most `N` successful pages are fetched: a present `next_page_link` once
the pass counter has reached `N` does not trigger another fetch.  (Without
that proviso an error envelope carrying a `next_page_link` lets the
unwinding retry frame resume pagination and exceed `N`.) -/
theorem fetch_page_limit_bound (net : Nat → ApiResponse)
    (hmeta : ∀ i, is_aircall_error (net i) = true → (net i).meta = none)
    (N : Int) (hN : 0 < N) (fuel idx : Nat) (np : Int)
    (dl dlist : List ApiResponse) (idx2 : Nat)
    (h : fetch_page net fuel idx dl N 0 np 0 = .ok dlist idx2) :
    idx ≤ idx2 ∧ (count_success net idx (idx2 - idx) : Int) ≤ N := by
  have hb :=
    fetch_page_pass_bound net hmeta fuel idx dl N 0 np 0 dlist idx2 le_rfl hN h
  simpa using hb

theorem fetch_page_limit_bound_witness :
    (0 : Nat) ≤ 2 ∧ (count_success allPagesNet 0 (2 - 0) : Int) ≤ 2 :=
  fetch_page_limit_bound allPagesNet
    (fun i h => absurd h (by simp [allPagesNet, is_aircall_error]))
    2 (by decide) 10 0 1 [] [allPagesNet 0, allPagesNet 1] 2 (by decide)

/-- C10, counterexample: the `N - 1` bound for the tags traversal (initial
pass counter `1`) fails when an error envelope carries pagination metadata:
at limit `N = 3`, starting from pass counter `1`, the traversal fetches 3
successful pages, exceeding `N - 1 = 2`. -/
theorem tags_bound_violated_by_error_meta :
    fetch_page advNet 10 0 [] 3 1 1 0 =
      .ok [advNet 1, advNet 2, advNet 0, advNet 3] 4 ∧
    count_success advNet 0 4 = 3 := by decide

/-- C10 (amended): `_get_tags` starts the traversal pass counter at `1`
(see `get_tags_model`) where `_get_data` starts at `0` (see
`get_data_model`); hence, when error envelopes carry no `meta`, for every
limit `N ≥ 2` at most `N - 1` pages of tags are fetched — one fewer than
the start-0 traversals' bound of `N` under the same limit.  The closed
conjuncts exhibit the difference at `N = 3` on a network of unboundedly
many pages: the tags-style traversal fetches 2 pages where the
`_get_data`-style traversal fetches 3. -/
theorem get_tags_pass_counter_bound (net : Nat → ApiResponse)
    (hmeta : ∀ i, is_aircall_error (net i) = true → (net i).meta = none)
    (N : Int) (hN : 2 ≤ N) (fuel : Nat)
    (dlist : List ApiResponse) (idx2 : Nat)
    (h : fetch_page net fuel 0 [] N 1 1 0 = .ok dlist idx2) :
    (count_success net 0 idx2 : Int) ≤ N - 1 ∧
    fetch_page allPagesNet 10 0 [] 3 1 1 0 =
      .ok [allPagesNet 0, allPagesNet 1] 2 ∧
    fetch_page allPagesNet 10 0 [] 3 0 1 0 =
      .ok [allPagesNet 0, allPagesNet 1, allPagesNet 2] 3 := by
  refine ⟨?_, by decide, by decide⟩
  have hb := fetch_page_pass_bound net hmeta fuel 0 [] N 1 1 0 dlist idx2
    (by omega) (by omega) h
  simpa using hb.2

theorem get_tags_pass_counter_bound_witness :
    ((count_success allPagesNet 0 2 : Int) ≤ 3 - 1 ∧
      fetch_page allPagesNet 10 0 [] 3 1 1 0 =
        .ok [allPagesNet 0, allPagesNet 1] 2 ∧
      fetch_page allPagesNet 10 0 [] 3 0 1 0 =
        .ok [allPagesNet 0, allPagesNet 1, allPagesNet 2] 3) :=
  get_tags_pass_counter_bound allPagesNet
    (fun i h => absurd h (by simp [allPagesNet, is_aircall_error]))
    3 (by omega) 10 [allPagesNet 0, allPagesNet 1] 2 (by decide)

end Toucan

